import Mathlib

/-!
# tachoparser `cmd/dddapi`: the parse routes

A shallow embedding of `src/cmd/dddapi/main.go`: the data extractor
`getDataFromRequest`, the three handlers `parseHandler`, `parseCardHandler`,
`parseVuHandler`, and the route table of `main`.

* Go `error` interface values are `GoError` (with the nil interface as a
  constructor); calling `Error()` can end in a nil dereference, so
  `GoError.Error` returns an `Option`.
* The package `decoder` is a parameter (`Decoder`): two functions of the bytes
  that return the `verified` flag, the filled record and the error.
* A handler run is an `Exchange`: the decoder invocations it made, in order,
  and what it did to the response (`c.JSON code obj`, or a runtime panic before
  anything was written).
* `Request` is what `getDataFromRequest` observes of `c.Request`; `Received`
  classifies the request by media type and `Received.toRequest` gives what
  `net/http` leaves of the body once `FormFile` has run.
-/

namespace Tachoparser

/-! ## Go values -/

/-- A value of Go's `error` interface type. `nil` is the nil interface,
`errorString` an ordinary error carrying its message, `ginError Err Meta` the
struct `gin.Error{Err: Err, Meta: Meta}`. -/
inductive GoError where
  | nil
  | errorString (s : String)
  | ginError (Err : GoError) (Meta : String)
  deriving DecidableEq, Repr

/-- The method `Error()`. `none` is the runtime panic of a method call on the nil
interface. `gin.Error.Error` is `return msg.Err.Error()`; its `Meta` is not
part of the message. -/
def GoError.Error : GoError → Option String
  | .nil => none
  | .errorString s => some s
  | .ginError Err _ => Err.Error

/-- The constant `http.StatusOK`. -/
def StatusOK : Nat := 200

/-- The constant `http.StatusBadRequest`. -/
def StatusBadRequest : Nat := 400

/-- A value stored in a `gin.H` map by the handlers. -/
inductive Value (Card Vu : Type) where
  | str (s : String)
  | bool (b : Bool)
  | card (c : Card)
  | vu (v : Vu)
  deriving DecidableEq, Repr

/-- The map `gin.H` as the list of its entries, in the order of the literal. -/
abbrev H (Card Vu : Type) := List (String × Value Card Vu)

/-- The value of a key of a `gin.H`, `none` when the key is absent. -/
def field {Card Vu : Type} (obj : H Card Vu) (key : String) : Option (Value Card Vu) :=
  List.lookup key obj

/-! ## The request -/

/-- The two values returned by `io.ReadAll`. -/
structure ReadResult where
  data : List Nat
  err : GoError
  deriving DecidableEq, Repr

/-- What `getDataFromRequest` observes of `c.Request`.
`FormFile name` is `some r` when `c.Request.FormFile(name)` returns a nil error,
`r` being what `io.ReadAll` then returns on the opened file; it is `none` when
`FormFile` returns an error. `Body` is what `io.ReadAll(c.Request.Body)` returns. -/
structure Request where
  FormFile : String → Option ReadResult
  Body : ReadResult

/-- The function `getDataFromRequest` of `main.go`. A nil slice is `[]`. -/
def getDataFromRequest (c : Request) : List Nat × GoError :=
  match c.FormFile "file" with
  | some file => (file.data, file.err)
  | none =>
    match c.Body with
    | ⟨data, err⟩ =>
      if err ≠ GoError.nil then
        ([], err)
      else if data.length = 0 then
        ([], GoError.ginError err
          "No data provided. Send file as multipart/form-data with key \x27file\x27 or send raw binary in request body")
      else
        (data, GoError.nil)

/-! ## The decoder package -/

/-- What one decoder call returns: the `verified` flag, the record written
through the pointer argument, and the error. -/
structure Decoded (R : Type) where
  verified : Bool
  record : R
  err : GoError

/-- The two entry points of package `decoder` used by the handlers. -/
structure Decoder (Card Vu : Type) where
  UnmarshalTLV : List Nat → Decoded Card
  UnmarshalTV : List Nat → Decoded Vu

/-- One decoder invocation, with its argument. -/
inductive Call where
  | UnmarshalTLV (data : List Nat)
  | UnmarshalTV (data : List Nat)
  deriving DecidableEq, Repr

/-- Calling `decoder.UnmarshalTLV`: the result, and the call appended to the log. -/
def Decoder.callTLV {Card Vu : Type} (dec : Decoder Card Vu) (calls : List Call)
    (data : List Nat) : Decoded Card × List Call :=
  (dec.UnmarshalTLV data, calls ++ [Call.UnmarshalTLV data])

/-- Calling `decoder.UnmarshalTV`: the result, and the call appended to the log. -/
def Decoder.callTV {Card Vu : Type} (dec : Decoder Card Vu) (calls : List Call)
    (data : List Nat) : Decoded Vu × List Call :=
  (dec.UnmarshalTV data, calls ++ [Call.UnmarshalTV data])

/-! ## The handlers -/

/-- What a handler did to the response: one `c.JSON(code, obj)`, or a runtime
panic raised before any write. -/
inductive Response (Card Vu : Type) where
  | JSON (code : Nat) (obj : H Card Vu)
  | panicked
  deriving DecidableEq, Repr

/-- One handler run: the decoder calls made, in order, and the response. -/
structure Exchange (Card Vu : Type) where
  calls : List Call
  response : Response Card Vu
  deriving DecidableEq, Repr

/-- The status code written, `none` when the handler panicked. -/
def Response.status {Card Vu : Type} : Response Card Vu → Option Nat
  | .JSON code _ => some code
  | .panicked => none

/-- The value of a key of the body written, `none` when absent or when nothing
was written. -/
def Response.get {Card Vu : Type} : Response Card Vu → String → Option (Value Card Vu)
  | .JSON _ obj, key => field obj key
  | .panicked, _ => none

/-- The handler `parseHandler` of `main.go` (route `POST /parse`). The variables
`verified` and `err` are assigned again by the second decoder call. -/
def parseHandler {Card Vu : Type} (dec : Decoder Card Vu) (c : Request) : Exchange Card Vu :=
  match getDataFromRequest c with
  | (data, err) =>
    if err ≠ GoError.nil then
      match err.Error with
      | some msg => ⟨[], .JSON StatusBadRequest [("error", .str msg)]⟩
      | none => ⟨[], .panicked⟩
    else
      match dec.callTLV [] data with
      | (⟨verified, card, err⟩, calls) =>
        if err = GoError.nil then
          ⟨calls, .JSON StatusOK
            [("type", .str "card"), ("verified", .bool verified), ("data", .card card)]⟩
        else
          match dec.callTV calls data with
          | (⟨verified, vu, err⟩, calls) =>
            if err ≠ GoError.nil then
              match err.Error with
              | some msg => ⟨calls, .JSON StatusBadRequest
                  [("error", .str "Failed to parse as either Card or VU"),
                   ("card_error", .str msg)]⟩
              | none => ⟨calls, .panicked⟩
            else
              ⟨calls, .JSON StatusOK
                [("type", .str "vu"), ("verified", .bool verified), ("data", .vu vu)]⟩

/-- The handler `parseCardHandler` of `main.go` (route `POST /parse/card`). -/
def parseCardHandler {Card Vu : Type} (dec : Decoder Card Vu) (c : Request) :
    Exchange Card Vu :=
  match getDataFromRequest c with
  | (data, err) =>
    if err ≠ GoError.nil then
      match err.Error with
      | some msg => ⟨[], .JSON StatusBadRequest [("error", .str msg)]⟩
      | none => ⟨[], .panicked⟩
    else
      match dec.callTLV [] data with
      | (⟨verified, card, err⟩, calls) =>
        if err ≠ GoError.nil then
          match err.Error with
          | some msg => ⟨calls, .JSON StatusBadRequest
              [("error", .str "Failed to parse as Card"), ("details", .str msg)]⟩
          | none => ⟨calls, .panicked⟩
        else
          ⟨calls, .JSON StatusOK
            [("type", .str "card"), ("verified", .bool verified), ("data", .card card)]⟩

/-- The handler `parseVuHandler` of `main.go` (route `POST /parse/vu`). -/
def parseVuHandler {Card Vu : Type} (dec : Decoder Card Vu) (c : Request) :
    Exchange Card Vu :=
  match getDataFromRequest c with
  | (data, err) =>
    if err ≠ GoError.nil then
      match err.Error with
      | some msg => ⟨[], .JSON StatusBadRequest [("error", .str msg)]⟩
      | none => ⟨[], .panicked⟩
    else
      match dec.callTV [] data with
      | (⟨verified, vu, err⟩, calls) =>
        if err ≠ GoError.nil then
          match err.Error with
          | some msg => ⟨calls, .JSON StatusBadRequest
              [("error", .str "Failed to parse as VU"), ("details", .str msg)]⟩
          | none => ⟨calls, .panicked⟩
        else
          ⟨calls, .JSON StatusOK
            [("type", .str "vu"), ("verified", .bool verified), ("data", .vu vu)]⟩

/-- The `r.POST` registrations of `main`: the handler of a path, if any. -/
def POST {Card Vu : Type} (relativePath : String) :
    Option (Decoder Card Vu → Request → Exchange Card Vu) :=
  if relativePath = "/parse" then some parseHandler
  else if relativePath = "/parse/card" then some parseCardHandler
  else if relativePath = "/parse/vu" then some parseVuHandler
  else none

/-! ## Concrete requests and a decoder double -/

/-- A request whose multipart field `file` is present and reads as `B`. -/
def multipartRequest (B : List Nat) : Request where
  FormFile := fun name => if name = "file" then some ⟨B, GoError.nil⟩ else none
  Body := ⟨[], GoError.nil⟩

/-- A request without multipart fields whose raw body reads as `B`. -/
def rawRequest (B : List Nat) : Request where
  FormFile := fun _ => none
  Body := ⟨B, GoError.nil⟩

/-- A decoder double over string records. The Card side accepts the payloads
that start with byte 1 and reports them unverified; the VU side accepts those
that start with byte 2 and reports them verified. On rejection the Card side
leaves `verified` set, so that a stale flag would be visible. -/
def sampleDecoder : Decoder String String where
  UnmarshalTLV := fun data =>
    if data.head? = some 1 then ⟨false, "card record", GoError.nil⟩
    else ⟨true, "", GoError.errorString "tlv: unexpected tag"⟩
  UnmarshalTV := fun data =>
    if data.head? = some 2 then ⟨true, "vu record", GoError.nil⟩
    else ⟨false, "", GoError.errorString "tv: unexpected type"⟩

/-! ## The request as it reaches `net/http`

`c.Request.FormFile` is not a pure lookup: it runs `ParseMultipartForm`, which
first runs `ParseForm`, and on a `POST` these read the body of a form request.
What `io.ReadAll(c.Request.Body)` finds afterwards depends on the media type
of the `Content-Type` header. -/

/-- A `POST` request by the media type of its `Content-Type` header, with what
`net/http` reads of it.
* `multipartForm File Rest`: `multipart/form-data`. `File key` is `some r` when
  the form has a file under `key`, `r` being what `io.ReadAll` returns on it;
  `Rest` is what `io.ReadAll` returns on the body after the multipart reader.
* `urlencodedForm body`: `application/x-www-form-urlencoded`, the bytes `body`
  arriving whole.
* `other Body`: any other or no media type; `Body` is what `io.ReadAll` returns
  on the body, which nothing has read before. -/
inductive Received where
  | multipartForm (File : String → Option ReadResult) (Rest : ReadResult)
  | urlencodedForm (body : List Nat)
  | other (Body : ReadResult)

/-- The bound `maxFormSize = int64(10 << 20)` of `parsePostForm` in `net/http`. -/
def maxFormSize : Nat := 10 <<< 20

/-- What `getDataFromRequest` observes of a received request. For a urlencoded
form `ParseForm` has read `io.LimitReader(r.Body, maxFormSize+1)` to its end,
`FormFile` then fails with `ErrNotMultipart`, and the body read that follows
gets the bytes past that limit. For any other non-multipart type `FormFile`
fails without reading the body. -/
def Received.toRequest : Received → Request
  | .multipartForm File Rest => ⟨File, Rest⟩
  | .urlencodedForm body => ⟨fun _ => none, ⟨body.drop (maxFormSize + 1), GoError.nil⟩⟩
  | .other Body => ⟨fun _ => none, Body⟩

/-- The files of a multipart form whose only file field is `file`, reading as `B`. -/
def fileField (B : List Nat) : String → Option ReadResult :=
  fun key => if key = "file" then some ⟨B, GoError.nil⟩ else none

/-! ## Helper lemmas: the branches of the handlers -/

theorem Error_some_ne_nil {e : GoError} {m : String} (h : e.Error = some m) :
    e ≠ GoError.nil := by
  intro hn
  rw [hn] at h
  simp [GoError.Error] at h

theorem getDataFromRequest_file (c : Request) (r : ReadResult)
    (hf : c.FormFile "file" = some r) : getDataFromRequest c = (r.data, r.err) := by
  simp [getDataFromRequest, hf]

theorem getDataFromRequest_body (c : Request) (B : List Nat) (hf : c.FormFile "file" = none)
    (hb : c.Body = ⟨B, GoError.nil⟩) (hne : B ≠ []) :
    getDataFromRequest c = (B, GoError.nil) := by
  simp [getDataFromRequest, hf, hb, hne]

theorem getDataFromRequest_empty_body (c : Request) (hf : c.FormFile "file" = none)
    (hb : c.Body = ⟨[], GoError.nil⟩) :
    getDataFromRequest c = ([], GoError.ginError GoError.nil
      "No data provided. Send file as multipart/form-data with key \x27file\x27 or send raw binary in request body") := by
  simp [getDataFromRequest, hf, hb]

theorem parseHandler_card_ok {Card Vu : Type} (dec : Decoder Card Vu) (c : Request)
    (data : List Nat) (hx : getDataFromRequest c = (data, GoError.nil))
    (hc : (dec.UnmarshalTLV data).err = GoError.nil) :
    parseHandler dec c =
      ⟨[Call.UnmarshalTLV data],
       .JSON 200 [("type", .str "card"),
                  ("verified", .bool (dec.UnmarshalTLV data).verified),
                  ("data", .card (dec.UnmarshalTLV data).record)]⟩ := by
  simp [parseHandler, hx, Decoder.callTLV, hc, StatusOK]

theorem parseHandler_vu_ok {Card Vu : Type} (dec : Decoder Card Vu) (c : Request)
    (data : List Nat) (hx : getDataFromRequest c = (data, GoError.nil))
    (hc : (dec.UnmarshalTLV data).err ≠ GoError.nil)
    (hv : (dec.UnmarshalTV data).err = GoError.nil) :
    parseHandler dec c =
      ⟨[Call.UnmarshalTLV data, Call.UnmarshalTV data],
       .JSON 200 [("type", .str "vu"),
                  ("verified", .bool (dec.UnmarshalTV data).verified),
                  ("data", .vu (dec.UnmarshalTV data).record)]⟩ := by
  simp [parseHandler, hx, Decoder.callTLV, Decoder.callTV, hc, hv, StatusOK]

/-- The both-rejected branch of `parseHandler`: the value stored under
`card_error` is the message of the error returned by `UnmarshalTV`. -/
theorem parseHandler_both_err {Card Vu : Type} (dec : Decoder Card Vu) (c : Request)
    (data : List Nat) (mv : String) (hx : getDataFromRequest c = (data, GoError.nil))
    (hc : (dec.UnmarshalTLV data).err ≠ GoError.nil)
    (hv : (dec.UnmarshalTV data).err.Error = some mv) :
    parseHandler dec c =
      ⟨[Call.UnmarshalTLV data, Call.UnmarshalTV data],
       .JSON 400 [("error", .str "Failed to parse as either Card or VU"),
                  ("card_error", .str mv)]⟩ := by
  have hv' := Error_some_ne_nil hv
  simp [parseHandler, hx, Decoder.callTLV, Decoder.callTV, hc, hv, hv', StatusBadRequest]

theorem parseHandler_calls {Card Vu : Type} (dec : Decoder Card Vu) (c : Request)
    (data : List Nat) (hx : getDataFromRequest c = (data, GoError.nil)) :
    (parseHandler dec c).calls =
      if (dec.UnmarshalTLV data).err = GoError.nil then [Call.UnmarshalTLV data]
      else [Call.UnmarshalTLV data, Call.UnmarshalTV data] := by
  by_cases hc : (dec.UnmarshalTLV data).err = GoError.nil
  · rw [parseHandler_card_ok dec c data hx hc, if_pos hc]
  · rw [if_neg hc]
    by_cases hv : (dec.UnmarshalTV data).err = GoError.nil
    · rw [parseHandler_vu_ok dec c data hx hc hv]
    · simp only [parseHandler, hx, Decoder.callTLV, Decoder.callTV]
      simp only [ne_eq, not_true_eq_false, if_false, hc, hv, not_false_eq_true, if_true]
      cases (dec.UnmarshalTV data).err.Error <;> simp

theorem parseCardHandler_ok {Card Vu : Type} (dec : Decoder Card Vu) (c : Request)
    (data : List Nat) (hx : getDataFromRequest c = (data, GoError.nil))
    (hc : (dec.UnmarshalTLV data).err = GoError.nil) :
    parseCardHandler dec c =
      ⟨[Call.UnmarshalTLV data],
       .JSON 200 [("type", .str "card"),
                  ("verified", .bool (dec.UnmarshalTLV data).verified),
                  ("data", .card (dec.UnmarshalTLV data).record)]⟩ := by
  simp [parseCardHandler, hx, Decoder.callTLV, hc, StatusOK]

theorem parseCardHandler_err {Card Vu : Type} (dec : Decoder Card Vu) (c : Request)
    (data : List Nat) (m : String) (hx : getDataFromRequest c = (data, GoError.nil))
    (hc : (dec.UnmarshalTLV data).err.Error = some m) :
    parseCardHandler dec c =
      ⟨[Call.UnmarshalTLV data],
       .JSON 400 [("error", .str "Failed to parse as Card"), ("details", .str m)]⟩ := by
  have hc' := Error_some_ne_nil hc
  simp [parseCardHandler, hx, Decoder.callTLV, hc, hc', StatusBadRequest]

theorem parseVuHandler_ok {Card Vu : Type} (dec : Decoder Card Vu) (c : Request)
    (data : List Nat) (hx : getDataFromRequest c = (data, GoError.nil))
    (hv : (dec.UnmarshalTV data).err = GoError.nil) :
    parseVuHandler dec c =
      ⟨[Call.UnmarshalTV data],
       .JSON 200 [("type", .str "vu"),
                  ("verified", .bool (dec.UnmarshalTV data).verified),
                  ("data", .vu (dec.UnmarshalTV data).record)]⟩ := by
  simp [parseVuHandler, hx, Decoder.callTV, hv, StatusOK]

theorem parseVuHandler_err {Card Vu : Type} (dec : Decoder Card Vu) (c : Request)
    (data : List Nat) (m : String) (hx : getDataFromRequest c = (data, GoError.nil))
    (hv : (dec.UnmarshalTV data).err.Error = some m) :
    parseVuHandler dec c =
      ⟨[Call.UnmarshalTV data],
       .JSON 400 [("error", .str "Failed to parse as VU"), ("details", .str m)]⟩ := by
  have hv' := Error_some_ne_nil hv
  simp [parseVuHandler, hx, Decoder.callTV, hv, hv', StatusBadRequest]

/-- The extraction-failure branch, shared by the three handlers. -/
theorem handlers_extraction_failed {Card Vu : Type} (dec : Decoder Card Vu) (c : Request)
    (hx : (getDataFromRequest c).2 ≠ GoError.nil) :
    parseCardHandler dec c = parseHandler dec c ∧ parseVuHandler dec c = parseHandler dec c
      ∧ (parseHandler dec c).calls = [] := by
  rcases hg : getDataFromRequest c with ⟨data, err⟩
  rw [hg] at hx
  simp only at hx
  simp only [parseHandler, parseCardHandler, parseVuHandler, hg]
  simp only [ne_eq, hx, not_false_eq_true, if_true]
  cases err.Error <;> simp

/-- Every handler reads the request through `getDataFromRequest` only. -/
theorem handlers_congr {Card Vu : Type} (dec : Decoder Card Vu) (c₁ c₂ : Request)
    (h : getDataFromRequest c₁ = getDataFromRequest c₂) :
    parseHandler dec c₁ = parseHandler dec c₂
      ∧ parseCardHandler dec c₁ = parseCardHandler dec c₂
      ∧ parseVuHandler dec c₁ = parseVuHandler dec c₂ := by
  simp only [parseHandler, parseCardHandler, parseVuHandler, h, and_self]

theorem POST_cases {Card Vu : Type} (path : String)
    (h : Decoder Card Vu → Request → Exchange Card Vu) (hp : POST path = some h) :
    h = parseHandler ∨ h = parseCardHandler ∨ h = parseVuHandler := by
  unfold POST at hp
  split_ifs at hp <;> simp_all

theorem parseCardHandler_calls {Card Vu : Type} (dec : Decoder Card Vu) (c : Request) :
    (parseCardHandler dec c).calls = []
      ∨ (parseCardHandler dec c).calls = [Call.UnmarshalTLV (getDataFromRequest c).1] := by
  simp only [parseCardHandler, Decoder.callTLV]
  generalize getDataFromRequest c = g
  obtain ⟨data, err⟩ := g
  simp only
  by_cases h1 : err = GoError.nil
  · by_cases h2 : (dec.UnmarshalTLV data).err = GoError.nil
    · simp [h1, h2]
    · simp only [h1, h2, ne_eq, not_true_eq_false, not_false_eq_true, if_true, if_false]
      cases (dec.UnmarshalTLV data).err.Error <;> simp
  · simp only [h1, ne_eq, not_false_eq_true, if_true]
    cases err.Error <;> simp

theorem parseVuHandler_calls {Card Vu : Type} (dec : Decoder Card Vu) (c : Request) :
    (parseVuHandler dec c).calls = []
      ∨ (parseVuHandler dec c).calls = [Call.UnmarshalTV (getDataFromRequest c).1] := by
  simp only [parseVuHandler, Decoder.callTV]
  generalize getDataFromRequest c = g
  obtain ⟨data, err⟩ := g
  simp only
  by_cases h1 : err = GoError.nil
  · by_cases h2 : (dec.UnmarshalTV data).err = GoError.nil
    · simp [h1, h2]
    · simp only [h1, h2, ne_eq, not_true_eq_false, not_false_eq_true, if_true, if_false]
      cases (dec.UnmarshalTV data).err.Error <;> simp
  · simp only [h1, ne_eq, not_false_eq_true, if_true]
    cases err.Error <;> simp

/-! ## The auto-detect route `POST /parse` -/

/-- Claim C1: when extraction returns a payload and the Card decoder accepts it,
`parseHandler` answers 200 with type "card", the decoder's own `verified` flag
and the decoder's record, after exactly one decoder call, the Card one; no VU
call is in the log, and the run is the same whatever the VU decoder is. -/
theorem parseHandler_card_accepted {Card Vu : Type} (dec : Decoder Card Vu) (c : Request)
    (data : List Nat) (hx : getDataFromRequest c = (data, GoError.nil))
    (hc : (dec.UnmarshalTLV data).err = GoError.nil) :
    parseHandler dec c =
        ⟨[Call.UnmarshalTLV data],
         .JSON 200 [("type", .str "card"),
                    ("verified", .bool (dec.UnmarshalTLV data).verified),
                    ("data", .card (dec.UnmarshalTLV data).record)]⟩
      ∧ (∀ d, Call.UnmarshalTV d ∉ (parseHandler dec c).calls)
      ∧ (∀ tv : List Nat → Decoded Vu,
          parseHandler ⟨dec.UnmarshalTLV, tv⟩ c = parseHandler dec c) := by
  have h0 := parseHandler_card_ok dec c data hx hc
  refine ⟨h0, ?_, ?_⟩
  · intro d
    rw [h0]
    simp
  · intro tv
    rw [h0]
    exact parseHandler_card_ok ⟨dec.UnmarshalTLV, tv⟩ c data hx hc

theorem parseHandler_card_accepted_witness :
    (getDataFromRequest (rawRequest [1, 2, 3]) = ([1, 2, 3], GoError.nil)
      ∧ (sampleDecoder.UnmarshalTLV [1, 2, 3]).err = GoError.nil)
    ∧ parseHandler sampleDecoder (rawRequest [1, 2, 3]) =
        ⟨[Call.UnmarshalTLV [1, 2, 3]],
         .JSON 200 [("type", .str "card"), ("verified", .bool false),
                    ("data", .card "card record")]⟩ :=
  ⟨⟨by decide, by decide⟩,
   (parseHandler_card_accepted sampleDecoder (rawRequest [1, 2, 3]) [1, 2, 3]
      (by decide) (by decide)).1⟩

/-- Claim C2: when extraction returns a payload that the Card decoder rejects
and the VU decoder accepts, `parseHandler` answers 200 with type "vu", the
`verified` flag returned by the VU decoder (whatever flag the failed Card call
returned) and the VU decoder's record. -/
theorem parseHandler_vu_accepted {Card Vu : Type} (dec : Decoder Card Vu) (c : Request)
    (data : List Nat) (hx : getDataFromRequest c = (data, GoError.nil))
    (hc : (dec.UnmarshalTLV data).err ≠ GoError.nil)
    (hv : (dec.UnmarshalTV data).err = GoError.nil) :
    (parseHandler dec c).response =
      .JSON 200 [("type", .str "vu"),
                 ("verified", .bool (dec.UnmarshalTV data).verified),
                 ("data", .vu (dec.UnmarshalTV data).record)] := by
  rw [parseHandler_vu_ok dec c data hx hc hv]

theorem parseHandler_vu_accepted_witness :
    (getDataFromRequest (multipartRequest [2, 7]) = ([2, 7], GoError.nil)
      ∧ (sampleDecoder.UnmarshalTLV [2, 7]).err ≠ GoError.nil
      ∧ (sampleDecoder.UnmarshalTLV [2, 7]).verified = true
      ∧ (sampleDecoder.UnmarshalTV [2, 7]).err = GoError.nil)
    ∧ (parseHandler sampleDecoder (multipartRequest [2, 7])).response =
        .JSON 200 [("type", .str "vu"), ("verified", .bool true), ("data", .vu "vu record")] :=
  ⟨⟨by decide, by decide, by decide, by decide⟩,
   parseHandler_vu_accepted sampleDecoder (multipartRequest [2, 7]) [2, 7]
      (by decide) (by decide) (by decide)⟩

/-- Claim C3, the code at a payload both decoders reject: the Card decoder's
message is "tlv: unexpected tag", the VU decoder's is "tv: unexpected type", and
the body of `parseHandler` carries the VU decoder's message under `card_error`. -/
theorem parseHandler_card_error_holds_vu_message :
    (sampleDecoder.UnmarshalTLV [3]).err.Error = some "tlv: unexpected tag"
    ∧ (sampleDecoder.UnmarshalTV [3]).err.Error = some "tv: unexpected type"
    ∧ (parseHandler sampleDecoder (rawRequest [3])).response =
        .JSON 400 [("error", .str "Failed to parse as either Card or VU"),
                   ("card_error", .str "tv: unexpected type")]
    ∧ (parseHandler sampleDecoder (rawRequest [3])).response.get "card_error"
        ≠ some (.str "tlv: unexpected tag") := by
  decide

/-- Claim C4: after a successful extraction, a payload rejected by both decoders
(the error the handler holds at that point, the one returned by `UnmarshalTV`,
having a message) gets status 400 and a body with a `card_error` string and
without `data`, `type` or `verified`; and status 400 is written only when both
decoders returned an error. -/
theorem parseHandler_bad_request_iff_both_rejected {Card Vu : Type} (dec : Decoder Card Vu)
    (c : Request) (data : List Nat) (hx : getDataFromRequest c = (data, GoError.nil)) :
    (∀ mv, (dec.UnmarshalTLV data).err ≠ GoError.nil →
        (dec.UnmarshalTV data).err.Error = some mv →
        (parseHandler dec c).response.status = some 400
        ∧ (∃ m, (parseHandler dec c).response.get "card_error" = some (.str m))
        ∧ (parseHandler dec c).response.get "data" = none
        ∧ (parseHandler dec c).response.get "type" = none
        ∧ (parseHandler dec c).response.get "verified" = none)
    ∧ ((parseHandler dec c).response.status = some 400 →
        (dec.UnmarshalTLV data).err ≠ GoError.nil
        ∧ (dec.UnmarshalTV data).err ≠ GoError.nil) := by
  constructor
  · intro mv hc hv
    rw [parseHandler_both_err dec c data mv hx hc hv]
    refine ⟨rfl, ⟨mv, ?_⟩, ?_, ?_, ?_⟩ <;>
      simp [Response.get, field, List.lookup]
  · intro h
    by_cases hc : (dec.UnmarshalTLV data).err = GoError.nil
    · rw [parseHandler_card_ok dec c data hx hc] at h
      simp [Response.status] at h
    · refine ⟨hc, ?_⟩
      intro hv
      rw [parseHandler_vu_ok dec c data hx hc hv] at h
      simp [Response.status] at h

theorem parseHandler_bad_request_iff_both_rejected_witness :
    (getDataFromRequest (rawRequest [3]) = ([3], GoError.nil)
      ∧ (sampleDecoder.UnmarshalTLV [3]).err ≠ GoError.nil
      ∧ (sampleDecoder.UnmarshalTV [3]).err.Error = some "tv: unexpected type")
    ∧ (parseHandler sampleDecoder (rawRequest [3])).response.status = some 400
    ∧ (parseHandler sampleDecoder (rawRequest [3])).response.get "data" = none :=
  ⟨⟨by decide, by decide, by decide⟩,
   (((parseHandler_bad_request_iff_both_rejected sampleDecoder (rawRequest [3]) [3]
      (by decide)).1 "tv: unexpected type" (by decide) (by decide)).1),
   (((parseHandler_bad_request_iff_both_rejected sampleDecoder (rawRequest [3]) [3]
      (by decide)).1 "tv: unexpected type" (by decide) (by decide)).2.2.1)⟩

/-! ## The single-format routes -/

/-- Claim C5: `parseCardHandler` never calls the VU decoder (no VU call is in
its log on any request, and its run is the same whatever the VU decoder is);
on an extracted payload it answers 200 with type "card", the decoder's
`verified` and record when the Card decoder accepts, and 400 with error
"Failed to parse as Card" and the decoder's message as `details` when the Card
decoder rejects with that message, the Card call being the only call. -/
theorem parseCardHandler_card_only {Card Vu : Type} (dec : Decoder Card Vu) (c : Request) :
    (∀ d, Call.UnmarshalTV d ∉ (parseCardHandler dec c).calls)
    ∧ (∀ tv : List Nat → Decoded Vu,
        parseCardHandler ⟨dec.UnmarshalTLV, tv⟩ c = parseCardHandler dec c)
    ∧ (∀ data, getDataFromRequest c = (data, GoError.nil) →
        ((dec.UnmarshalTLV data).err = GoError.nil →
          parseCardHandler dec c =
            ⟨[Call.UnmarshalTLV data],
             .JSON 200 [("type", .str "card"),
                        ("verified", .bool (dec.UnmarshalTLV data).verified),
                        ("data", .card (dec.UnmarshalTLV data).record)]⟩)
        ∧ (∀ m, (dec.UnmarshalTLV data).err.Error = some m →
          parseCardHandler dec c =
            ⟨[Call.UnmarshalTLV data],
             .JSON 400 [("error", .str "Failed to parse as Card"),
                        ("details", .str m)]⟩)) := by
  refine ⟨?_, ?_, ?_⟩
  · intro d
    rcases parseCardHandler_calls dec c with h | h <;> rw [h] <;> simp
  · intro tv
    rfl
  · intro data hx
    exact ⟨parseCardHandler_ok dec c data hx,
      fun m hm => parseCardHandler_err dec c data m hx hm⟩

theorem parseCardHandler_card_only_witness :
    (getDataFromRequest (rawRequest [2, 7]) = ([2, 7], GoError.nil)
      ∧ (sampleDecoder.UnmarshalTLV [2, 7]).err.Error = some "tlv: unexpected tag"
      ∧ (sampleDecoder.UnmarshalTV [2, 7]).err = GoError.nil)
    ∧ parseCardHandler sampleDecoder (rawRequest [2, 7]) =
        ⟨[Call.UnmarshalTLV [2, 7]],
         .JSON 400 [("error", .str "Failed to parse as Card"),
                    ("details", .str "tlv: unexpected tag")]⟩ :=
  ⟨⟨by decide, by decide, by decide⟩,
   ((parseCardHandler_card_only sampleDecoder (rawRequest [2, 7])).2.2 [2, 7]
      (by decide)).2 "tlv: unexpected tag" (by decide)⟩

/-- Claim C6: `parseVuHandler` never calls the Card decoder (no Card call is in
its log on any request, and its run is the same whatever the Card decoder is);
on an extracted payload it answers 200 with type "vu", the decoder's `verified`
and record when the VU decoder accepts, and 400 with error "Failed to parse as
VU" and the decoder's message as `details` when the VU decoder rejects with
that message. -/
theorem parseVuHandler_vu_only {Card Vu : Type} (dec : Decoder Card Vu) (c : Request) :
    (∀ d, Call.UnmarshalTLV d ∉ (parseVuHandler dec c).calls)
    ∧ (∀ tlv : List Nat → Decoded Card,
        parseVuHandler ⟨tlv, dec.UnmarshalTV⟩ c = parseVuHandler dec c)
    ∧ (∀ data, getDataFromRequest c = (data, GoError.nil) →
        ((dec.UnmarshalTV data).err = GoError.nil →
          parseVuHandler dec c =
            ⟨[Call.UnmarshalTV data],
             .JSON 200 [("type", .str "vu"),
                        ("verified", .bool (dec.UnmarshalTV data).verified),
                        ("data", .vu (dec.UnmarshalTV data).record)]⟩)
        ∧ (∀ m, (dec.UnmarshalTV data).err.Error = some m →
          parseVuHandler dec c =
            ⟨[Call.UnmarshalTV data],
             .JSON 400 [("error", .str "Failed to parse as VU"),
                        ("details", .str m)]⟩)) := by
  refine ⟨?_, ?_, ?_⟩
  · intro d
    rcases parseVuHandler_calls dec c with h | h <;> rw [h] <;> simp
  · intro tlv
    rfl
  · intro data hx
    exact ⟨parseVuHandler_ok dec c data hx,
      fun m hm => parseVuHandler_err dec c data m hx hm⟩

theorem parseVuHandler_vu_only_witness :
    (getDataFromRequest (rawRequest [1, 7]) = ([1, 7], GoError.nil)
      ∧ (sampleDecoder.UnmarshalTV [1, 7]).err.Error = some "tv: unexpected type"
      ∧ (sampleDecoder.UnmarshalTLV [1, 7]).err = GoError.nil)
    ∧ parseVuHandler sampleDecoder (rawRequest [1, 7]) =
        ⟨[Call.UnmarshalTV [1, 7]],
         .JSON 400 [("error", .str "Failed to parse as VU"),
                    ("details", .str "tv: unexpected type")]⟩ :=
  ⟨⟨by decide, by decide, by decide⟩,
   ((parseVuHandler_vu_only sampleDecoder (rawRequest [1, 7])).2.2 [1, 7]
      (by decide)).2 "tv: unexpected type" (by decide)⟩

/-! ## Extraction -/

/-- Claim C7, the code on a request with no `file` field and an empty body:
`getDataFromRequest` returns `gin.Error` with a nil `Err`, whose `Error()` has
no value to return; each of the three handlers stops there, with no decoder
call and without writing status 400 or any body. -/
theorem emptyPayload_handlers_panic {Card Vu : Type} (dec : Decoder Card Vu) :
    getDataFromRequest (rawRequest []) = ([], GoError.ginError GoError.nil
      "No data provided. Send file as multipart/form-data with key \x27file\x27 or send raw binary in request body")
    ∧ (getDataFromRequest (rawRequest [])).2.Error = none
    ∧ (∀ (path : String) (h : Decoder Card Vu → Request → Exchange Card Vu),
        POST path = some h →
          h dec (rawRequest []) = ⟨[], .panicked⟩
          ∧ (h dec (rawRequest [])).response.status ≠ some 400
          ∧ (h dec (rawRequest [])).response.get "error" = none) := by
  refine ⟨by decide, by decide, ?_⟩
  intro path h hp
  have hall : parseHandler dec (rawRequest []) = ⟨[], .panicked⟩
      ∧ parseCardHandler dec (rawRequest []) = ⟨[], .panicked⟩
      ∧ parseVuHandler dec (rawRequest []) = ⟨[], .panicked⟩ := ⟨rfl, rfl, rfl⟩
  rcases POST_cases path h hp with rfl | rfl | rfl
  · rw [hall.1]; simp [Response.status, Response.get]
  · rw [hall.2.1]; simp [Response.status, Response.get]
  · rw [hall.2.2]; simp [Response.status, Response.get]

/-- Claim C8 as stated fails twice. At the empty sequence: read from the `file`
field it is extracted without error and the decoders run on it, while as a raw
body it is an extraction error and no decoder runs. At a non-empty sequence
sent as a raw body of type `application/x-www-form-urlencoded`: `FormFile` has
read the body, so extraction finds it empty and fails, while the same bytes in
the `file` field are extracted and decoded. -/
theorem source_independence_fails :
    (getDataFromRequest (Received.multipartForm (fileField []) ⟨[], GoError.nil⟩).toRequest
        = ([], GoError.nil)
      ∧ (getDataFromRequest (Received.other ⟨[], GoError.nil⟩).toRequest).2 ≠ GoError.nil
      ∧ (parseHandler sampleDecoder
          (Received.multipartForm (fileField []) ⟨[], GoError.nil⟩).toRequest).calls
          = [Call.UnmarshalTLV [], Call.UnmarshalTV []]
      ∧ (parseHandler sampleDecoder (Received.other ⟨[], GoError.nil⟩).toRequest).calls = []
      ∧ parseHandler sampleDecoder
          (Received.multipartForm (fileField []) ⟨[], GoError.nil⟩).toRequest
          ≠ parseHandler sampleDecoder (Received.other ⟨[], GoError.nil⟩).toRequest
      ∧ parseCardHandler sampleDecoder
          (Received.multipartForm (fileField []) ⟨[], GoError.nil⟩).toRequest
          ≠ parseCardHandler sampleDecoder (Received.other ⟨[], GoError.nil⟩).toRequest
      ∧ parseVuHandler sampleDecoder
          (Received.multipartForm (fileField []) ⟨[], GoError.nil⟩).toRequest
          ≠ parseVuHandler sampleDecoder (Received.other ⟨[], GoError.nil⟩).toRequest)
    ∧ (getDataFromRequest (Received.multipartForm (fileField [1, 7]) ⟨[], GoError.nil⟩).toRequest
        = ([1, 7], GoError.nil)
      ∧ (getDataFromRequest (Received.urlencodedForm [1, 7]).toRequest).2 ≠ GoError.nil
      ∧ (parseHandler sampleDecoder
          (Received.multipartForm (fileField [1, 7]) ⟨[], GoError.nil⟩).toRequest).response.status
          = some 200
      ∧ parseHandler sampleDecoder (Received.urlencodedForm [1, 7]).toRequest
          = ⟨[], .panicked⟩
      ∧ parseCardHandler sampleDecoder
          (Received.multipartForm (fileField [1, 7]) ⟨[], GoError.nil⟩).toRequest
          ≠ parseCardHandler sampleDecoder (Received.urlencodedForm [1, 7]).toRequest
      ∧ parseVuHandler sampleDecoder
          (Received.multipartForm (fileField [1, 7]) ⟨[], GoError.nil⟩).toRequest
          ≠ parseVuHandler sampleDecoder (Received.urlencodedForm [1, 7]).toRequest) := by
  decide

/-- Claim C8, amended: for every non-empty byte sequence `B`, a multipart request
whose `file` field reads as `B` and a raw-body request of a media type other
than the two form types (so that `FormFile` fails without reading the body)
whose body reads as `B` both extract `B` without error, and every parse route
gives the same run (decoder calls, status and body) on the two. -/
theorem source_independence_nonempty {Card Vu : Type} (dec : Decoder Card Vu)
    (B : List Nat) (File : String → Option ReadResult) (Rest : ReadResult)
    (hne : B ≠ []) (hf : File "file" = some ⟨B, GoError.nil⟩) :
    getDataFromRequest (Received.multipartForm File Rest).toRequest = (B, GoError.nil)
    ∧ getDataFromRequest (Received.other ⟨B, GoError.nil⟩).toRequest = (B, GoError.nil)
    ∧ (∀ (path : String) (h : Decoder Card Vu → Request → Exchange Card Vu),
        POST path = some h →
          h dec (Received.multipartForm File Rest).toRequest
            = h dec (Received.other ⟨B, GoError.nil⟩).toRequest) := by
  have e₁ : getDataFromRequest (Received.multipartForm File Rest).toRequest
      = (B, GoError.nil) :=
    getDataFromRequest_file _ ⟨B, GoError.nil⟩ hf
  have e₂ : getDataFromRequest (Received.other ⟨B, GoError.nil⟩).toRequest
      = (B, GoError.nil) :=
    getDataFromRequest_body _ B rfl rfl hne
  refine ⟨e₁, e₂, ?_⟩
  intro path h hp
  have hall := handlers_congr dec _ _ (e₁.trans e₂.symm)
  rcases POST_cases path h hp with rfl | rfl | rfl
  · exact hall.1
  · exact hall.2.1
  · exact hall.2.2

theorem source_independence_nonempty_witness :
    (([5] : List Nat) ≠ []
      ∧ fileField [5] "file" = some ⟨[5], GoError.nil⟩
      ∧ (POST "/parse" : Option (Decoder String String → Request → Exchange String String))
          = some parseHandler)
    ∧ getDataFromRequest (Received.multipartForm (fileField [5]) ⟨[], GoError.nil⟩).toRequest
        = ([5], GoError.nil)
    ∧ getDataFromRequest (Received.other ⟨[5], GoError.nil⟩).toRequest = ([5], GoError.nil)
    ∧ parseHandler sampleDecoder
        (Received.multipartForm (fileField [5]) ⟨[], GoError.nil⟩).toRequest
        = parseHandler sampleDecoder (Received.other ⟨[5], GoError.nil⟩).toRequest :=
  ⟨⟨by decide, by decide, rfl⟩,
   (source_independence_nonempty sampleDecoder [5] (fileField [5]) ⟨[], GoError.nil⟩
      (by decide) (by decide)).1,
   (source_independence_nonempty sampleDecoder [5] (fileField [5]) ⟨[], GoError.nil⟩
      (by decide) (by decide)).2.1,
   (source_independence_nonempty sampleDecoder [5] (fileField [5]) ⟨[], GoError.nil⟩
      (by decide) (by decide)).2.2 "/parse" parseHandler rfl⟩

/-! ## Attempt sequence and agreement of the routes -/

/-- Claim C9: on an extracted payload `parseHandler` calls the Card decoder
first and once, then the VU decoder once exactly when the Card decoder returned
an error, and nothing else: the log is `[TLV]` or `[TLV, TV]`, without
repetition, of length one or two. When extraction fails the log is empty. -/
theorem parseHandler_attempt_sequence {Card Vu : Type} (dec : Decoder Card Vu) (c : Request) :
    (∀ data, getDataFromRequest c = (data, GoError.nil) →
        (parseHandler dec c).calls =
          (if (dec.UnmarshalTLV data).err = GoError.nil then [Call.UnmarshalTLV data]
           else [Call.UnmarshalTLV data, Call.UnmarshalTV data])
        ∧ (parseHandler dec c).calls.head? = some (Call.UnmarshalTLV data)
        ∧ (parseHandler dec c).calls.count (Call.UnmarshalTLV data) = 1
        ∧ (parseHandler dec c).calls.count (Call.UnmarshalTV data) =
            (if (dec.UnmarshalTLV data).err = GoError.nil then 0 else 1)
        ∧ (parseHandler dec c).calls.Nodup
        ∧ ((parseHandler dec c).calls.length = 1 ∨ (parseHandler dec c).calls.length = 2))
    ∧ ((getDataFromRequest c).2 ≠ GoError.nil → (parseHandler dec c).calls = []) := by
  constructor
  · intro data hx
    have h := parseHandler_calls dec c data hx
    refine ⟨h, ?_⟩
    rw [h]
    by_cases hc : (dec.UnmarshalTLV data).err = GoError.nil
    · simp [hc]
    · simp [hc]
  · intro hx
    exact (handlers_extraction_failed dec c hx).2.2

theorem parseHandler_attempt_sequence_witness :
    (parseHandler sampleDecoder (rawRequest [2, 7])).calls
        = [Call.UnmarshalTLV [2, 7], Call.UnmarshalTV [2, 7]]
    ∧ (parseHandler sampleDecoder
        ⟨fun _ => none, ⟨[1], GoError.errorString "unexpected EOF"⟩⟩).calls = [] :=
  ⟨((parseHandler_attempt_sequence sampleDecoder (rawRequest [2, 7])).1 [2, 7]
      (by decide)).1,
   (parseHandler_attempt_sequence sampleDecoder
      ⟨fun _ => none, ⟨[1], GoError.errorString "unexpected EOF"⟩⟩).2 (by decide)⟩

/-- Claim C10: on a request whose payload the Card decoder accepts,
`parseHandler` and `parseCardHandler` give the same run; on one whose payload
the Card decoder rejects and the VU decoder accepts, `parseHandler` and
`parseVuHandler` give the same response (status and body); and when extraction
fails the three handlers give the same run. -/
theorem parseHandler_agrees_with_single_routes {Card Vu : Type} (dec : Decoder Card Vu)
    (c : Request) :
    (∀ data, getDataFromRequest c = (data, GoError.nil) →
        (dec.UnmarshalTLV data).err = GoError.nil →
        parseHandler dec c = parseCardHandler dec c)
    ∧ (∀ data, getDataFromRequest c = (data, GoError.nil) →
        (dec.UnmarshalTLV data).err ≠ GoError.nil →
        (dec.UnmarshalTV data).err = GoError.nil →
        (parseHandler dec c).response = (parseVuHandler dec c).response)
    ∧ ((getDataFromRequest c).2 ≠ GoError.nil →
        parseCardHandler dec c = parseHandler dec c
        ∧ parseVuHandler dec c = parseHandler dec c) := by
  refine ⟨?_, ?_, ?_⟩
  · intro data hx hc
    rw [parseHandler_card_ok dec c data hx hc, parseCardHandler_ok dec c data hx hc]
  · intro data hx hc hv
    rw [parseHandler_vu_ok dec c data hx hc hv, parseVuHandler_ok dec c data hx hv]
  · intro hx
    exact ⟨(handlers_extraction_failed dec c hx).1, (handlers_extraction_failed dec c hx).2.1⟩

theorem parseHandler_agrees_with_single_routes_witness :
    (parseHandler sampleDecoder (rawRequest [1, 7])
        = parseCardHandler sampleDecoder (rawRequest [1, 7]))
    ∧ ((parseHandler sampleDecoder (rawRequest [2, 7])).response
        = (parseVuHandler sampleDecoder (rawRequest [2, 7])).response)
    ∧ (parseCardHandler sampleDecoder
          ⟨fun _ => none, ⟨[1], GoError.errorString "unexpected EOF"⟩⟩
        = parseHandler sampleDecoder
          ⟨fun _ => none, ⟨[1], GoError.errorString "unexpected EOF"⟩⟩) :=
  ⟨(parseHandler_agrees_with_single_routes sampleDecoder (rawRequest [1, 7])).1 [1, 7]
      (by decide) (by decide),
   (parseHandler_agrees_with_single_routes sampleDecoder (rawRequest [2, 7])).2.1 [2, 7]
      (by decide) (by decide) (by decide),
   ((parseHandler_agrees_with_single_routes sampleDecoder
      ⟨fun _ => none, ⟨[1], GoError.errorString "unexpected EOF"⟩⟩).2.2 (by decide)).1⟩

end Tachoparser
